import Mathlib

/-!
Verification of the heuristic analysis & scheduling engine of the
neurologic-coach repository: crisis detection, pattern-based cognitive
distortion analysis, task/urge extraction, local task prioritization,
energy pattern analysis, and the time-block auto-scheduler.

Conventions of the embedding:
* JavaScript numbers that only ever hold integers are modelled as `Nat`/`Int`;
  energy averages (true divisions) are modelled as `Rat`.
* Clock times ("HH:MM" strings in the source) are modelled by their parsed
  value `hour * 60 + minute` in minutes since midnight, exactly the quantity
  the source computes with `parseInt(t.split(':')[0]) * 60 + parseInt(...)`.
* The JavaScript idiom `x || d` on numbers (0 and undefined are falsy) is
  modelled by `jsOrNat` / `jsOrInt` / `jsOrRat`.
* `Array.prototype.sort(cmp)` is modelled by a stable insertion sort `jsSort`
  with the boolean comparator `cmp(a,b) <= 0`.
* `Math.random()`-driven choices are modelled by an explicit index argument.
-/

namespace NeuroLogic

/-- JS `x || d` for an optional natural number: `undefined` and `0` are falsy. -/
def jsOrNat (x : Option Nat) (d : Nat) : Nat :=
  match x with
  | none => d
  | some v => if v = 0 then d else v

/-- JS `x || d` for an optional integer: `undefined` and `0` are falsy. -/
def jsOrInt (x : Option Int) (d : Int) : Int :=
  match x with
  | none => d
  | some v => if v = 0 then d else v

/-- JS `x || d` for an optional rational: `undefined` and `0` are falsy. -/
def jsOrRat (x : Option Rat) (d : Rat) : Rat :=
  match x with
  | none => d
  | some v => if v = 0 then d else v

/-- Insert into a sorted list, keeping earlier elements first on ties
(`le a b` means the comparator puts `a` not after `b`). -/
def sortInsert (le : α → α → Bool) (a : α) : List α → List α
  | [] => [a]
  | b :: bs => if le a b then a :: b :: bs else b :: sortInsert le a bs

/-- Stable sort modelling `Array.prototype.sort` with a consistent comparator. -/
def jsSort (le : α → α → Bool) : List α → List α
  | [] => []
  | a :: as => sortInsert le a (jsSort le as)

theorem mem_sortInsert (le : α → α → Bool) (a x : α) (l : List α) :
    x ∈ sortInsert le a l ↔ x = a ∨ x ∈ l := by
  induction l with
  | nil => simp [sortInsert]
  | cons b bs ih =>
    simp only [sortInsert]
    by_cases h : le a b
    · simp [h]
    · simp [h, ih]
      tauto

theorem mem_jsSort (le : α → α → Bool) (x : α) (l : List α) :
    x ∈ jsSort le l ↔ x ∈ l := by
  induction l with
  | nil => simp [jsSort]
  | cons a as ih => simp [jsSort, mem_sortInsert, ih]

theorem pairwise_sortInsert (le : α → α → Bool)
    (htrans : ∀ a b c, le a b → le b c → le a c)
    (htot : ∀ a b, le a b ∨ le b a) (a : α) (l : List α)
    (hl : l.Pairwise (fun x y => le x y)) :
    (sortInsert le a l).Pairwise (fun x y => le x y) := by
  induction l with
  | nil => simp [sortInsert]
  | cons b bs ih =>
    simp only [sortInsert]
    by_cases h : le a b
    · rw [if_pos h]
      refine List.Pairwise.cons ?_ hl
      intro y hy
      rcases List.mem_cons.mp hy with rfl | hy
      · exact h
      · exact htrans a b y h (List.rel_of_pairwise_cons hl hy)
    · rw [if_neg h]
      have hba : le b a := (htot a b).resolve_left h
      have hbs := List.Pairwise.of_cons hl
      refine List.Pairwise.cons ?_ (ih hbs)
      intro y hy
      rw [mem_sortInsert] at hy
      rcases hy with rfl | hy
      · exact hba
      · exact List.rel_of_pairwise_cons hl hy

theorem pairwise_jsSort (le : α → α → Bool)
    (htrans : ∀ a b c, le a b → le b c → le a c)
    (htot : ∀ a b, le a b ∨ le b a) (l : List α) :
    (jsSort le l).Pairwise (fun x y => le x y) := by
  induction l with
  | nil => simp [jsSort]
  | cons a as ih => exact pairwise_sortInsert le htrans htot a _ ih

/-! ### String machinery

ASCII models of the JavaScript string operations used by the engine:
`toLowerCase`, `toUpperCase` on the first character, the regex word-character
class `\w`, whole-word search (a `\b pat \b` regex where `pat` starts and ends
with word characters, as every pattern in the source tables does), and plain
substring search (`String.prototype.includes`). -/

/-- ASCII lower-casing of one character (model of JS `toLowerCase`). -/
def lcChar (c : Char) : Char := c.toLower

/-- ASCII upper-casing of one character (model of JS `toUpperCase`). -/
def ucChar (c : Char) : Char := c.toUpper

/-- `s.toLowerCase()`. -/
def lcString (s : String) : String := String.mk (s.toList.map lcChar)

/-- `s.charAt(0).toUpperCase() + s.slice(1)`. -/
def capitalize (s : String) : String :=
  match s.toList with
  | [] => ""
  | c :: cs => String.mk (ucChar c :: cs)

/-- The regex word-character class `\w` = `[A-Za-z0-9_]`. -/
def isWordChar (c : Char) : Bool :=
  ('a' ≤ c && c ≤ 'z') || ('A' ≤ c && c ≤ 'Z') || ('0' ≤ c && c ≤ '9') || c = '_'

/-- If `pat` is a literal prefix of `s`, return the remainder of `s`. -/
def prefixRest : List Char → List Char → Option (List Char)
  | [], s => some s
  | _ :: _, [] => none
  | p :: ps, c :: cs => if p = c then prefixRest ps cs else none

/-- Does `\b pat \b` match at the current position, where `prev` is the
character just before the position (`none` at the start of the string)?
Sound for patterns that start and end with word characters. -/
def wholeWordAt (pat s : List Char) (prev : Option Char) : Bool :=
  (match prev with
   | none => true
   | some c => !(isWordChar c)) &&
  (match prefixRest pat s with
   | some [] => true
   | some (c :: _) => !(isWordChar c)
   | none => false)

/-- Search for a whole-word occurrence of `pat` anywhere in `s`. -/
def wholeWordSearch (pat : List Char) : List Char → Option Char → Bool
  | [], prev => wholeWordAt pat [] prev
  | c :: cs, prev => wholeWordAt pat (c :: cs) prev || wholeWordSearch pat cs (some c)

/-- `new RegExp('\\b' + pat + '\\b', 'i').test(s)`: case-insensitive
whole-word search (both sides are lower-cased, as the source lower-cases the
subject and uses lower-case pattern tables with the `i` flag). -/
def testWordPattern (pat s : String) : Bool :=
  wholeWordSearch (lcString pat).toList (lcString s).toList none

/-- Is `pat` a substring of `s` (JS `String.prototype.includes`)? -/
def substrSearch (pat : List Char) : List Char → Bool
  | [] => (prefixRest pat []).isSome
  | c :: cs => (prefixRest pat (c :: cs)).isSome || substrSearch pat cs

/-- `s.toLowerCase().includes(pat)`. -/
def lcIncludes (s pat : String) : Bool :=
  substrSearch pat.toList (lcString s).toList

/-- `String.prototype.trim`: drop leading and trailing whitespace. -/
def jsTrim (s : String) : String :=
  String.mk ((((s.toList.dropWhile Char.isWhitespace).reverse).dropWhile
    Char.isWhitespace).reverse)

/-- Split a character list at every delimiter character. -/
def splitChars (p : Char → Bool) : List Char → List (List Char)
  | [] => [[]]
  | c :: cs =>
    if p c then [] :: splitChars p cs
    else
      match splitChars p cs with
      | [] => [[c]]
      | g :: gs => (c :: g) :: gs

/-- Sentence splitting used throughout the engine:
`transcript.split(/[.!?]+/).filter(s => s.trim())`. Splitting on each single
delimiter and discarding pieces whose trim is empty agrees with splitting on
delimiter runs and applying the same filter. -/
def sentencesOf (transcript : String) : List String :=
  ((splitChars (fun c => c = '.' || c = '!' || c = '?') transcript.toList).map
    String.mk).filter (fun s => jsTrim s ≠ "")

/-- JS `Set`-based dedup: keep the first occurrence of each element. -/
def jsSetDedup (l : List String) : List String :=
  l.foldl (fun acc s => if s ∈ acc then acc else acc ++ [s]) []

/-! ### Crisis detector (`detectCrisis`, cognitiveAnalysis.ts lines 121-188)

Each source pattern is a case-insensitive regex of whole-word-delimited
alternatives of literal phrases (plus optional apostrophes, expanded below
into explicit variants).  A pattern is modelled by its `source` text (what
`detectCrisis` pushes into `matchedPatterns`) and the list of phrases whose
whole-word occurrence makes the regex match. -/

structure CrisisPattern where
  source : String
  phrases : List String
deriving Repr, DecidableEq

/-- `pattern.test(transcript)`. -/
def CrisisPattern.test (p : CrisisPattern) (transcript : String) : Bool :=
  p.phrases.any (fun ph => testWordPattern ph transcript)

/-- The three severity tiers of `CRISIS_PATTERNS`. -/
structure CrisisPatternTiers where
  immediate : List CrisisPattern
  high : List CrisisPattern
  medium : List CrisisPattern

/-- Cross product of phrase alternations, joined by single spaces. -/
def phraseProd (parts : List (List String)) : List String :=
  parts.foldl
    (fun acc alts =>
      acc.flatMap (fun pre => alts.map (fun alt => pre ++ " " ++ alt)))
    [""] |>.map (fun s => s.drop 1)

def CRISIS_PATTERNS : CrisisPatternTiers where
  immediate := [
    { source := "\\b(going to|want to|planning to|will) (kill|end|hurt) (myself|my life)\\b",
      phrases := phraseProd [["going to", "want to", "planning to", "will"],
        ["kill", "end", "hurt"], ["myself", "my life"]] },
    { source := "\\b(suicide|suicidal)\\b", phrases := ["suicide", "suicidal"] },
    { source := "\\bkill myself\\b", phrases := ["kill myself"] },
    { source := "\\bend (it all|my life|everything)\\b",
      phrases := phraseProd [["end"], ["it all", "my life", "everything"]] },
    { source := "\\bdon'?t want to (live|be alive|exist)\\b",
      phrases := phraseProd [["dont", "don't"], ["want to"], ["live", "be alive", "exist"]] },
    { source := "\\b(better off|world would be better) (dead|without me)\\b",
      phrases := phraseProd [["better off", "world would be better"], ["dead", "without me"]] },
    { source := "\\bno (reason|point) (to|in) (live|living|go on|going on)\\b",
      phrases := phraseProd [["no"], ["reason", "point"], ["to", "in"],
        ["live", "living", "go on", "going on"]] },
    { source := "\\bcan'?t (go on|take it|do this) anymore\\b",
      phrases := phraseProd [["cant", "can't"], ["go on", "take it", "do this"], ["anymore"]] }]
  high := [
    { source := "\\b(want to|wanna) (die|disappear)\\b",
      phrases := phraseProd [["want to", "wanna"], ["die", "disappear"]] },
    { source := "\\bwish (i was|i were|i'd) (dead|never born|gone)\\b",
      phrases := phraseProd [["wish"], ["i was", "i were", "i'd"],
        ["dead", "never born", "gone"]] },
    { source := "\\b(hurt|harm|cut|injure) myself\\b",
      phrases := phraseProd [["hurt", "harm", "cut", "injure"], ["myself"]] },
    { source := "\\bself[- ]?harm\\b", phrases := ["selfharm", "self-harm", "self harm"] },
    { source := "\\blife (is|isn'?t|not) worth (it|living)\\b",
      phrases := phraseProd [["life"], ["is", "isnt", "isn't", "not"], ["worth"],
        ["it", "living"]] },
    { source := "\\beveryone would be (better|happier) without me\\b",
      phrases := phraseProd [["everyone would be"], ["better", "happier"], ["without me"]] },
    { source := "\\bi'?m a burden\\b", phrases := ["im a burden", "i'm a burden"] }]
  medium := [
    { source := "\\bfeeling (hopeless|helpless|trapped)\\b",
      phrases := phraseProd [["feeling"], ["hopeless", "helpless", "trapped"]] },
    { source := "\\bno (hope|way out)\\b", phrases := phraseProd [["no"], ["hope", "way out"]] },
    { source := "\\bcan'?t (cope|handle|deal)\\b",
      phrases := phraseProd [["cant", "can't"], ["cope", "handle", "deal"]] },
    { source := "\\b(completely|utterly|totally) (alone|worthless|useless)\\b",
      phrases := phraseProd [["completely", "utterly", "totally"],
        ["alone", "worthless", "useless"]] },
    { source := "\\bwhat'?s the point\\b", phrases := ["whats the point", "what's the point"] },
    { source := "\\bgive up\\b", phrases := ["give up"] }]

inductive Severity
  | none | low | medium | high | immediate
deriving Repr, DecidableEq

structure CrisisDetectionResult where
  isCrisis : Bool
  severity : Severity
  matchedPatterns : List String
deriving Repr, DecidableEq

/-- One `for (const pattern of tier)` loop of `detectCrisis`: each matching
pattern pushes its source and sets `severity` to the tier's severity. -/
def runTier (transcript : String) (tierSev : Severity) (tier : List CrisisPattern)
    (st : List String × Severity) : List String × Severity :=
  tier.foldl
    (fun st p => if p.test transcript then (st.1 ++ [p.source], tierSev) else st) st

/-- `detectCrisis` (cognitiveAnalysis.ts lines 151-188): scan `immediate`;
scan `high` only if severity is not `immediate`; scan `medium` only if
severity is still `none`. -/
def detectCrisisWith (tiers : CrisisPatternTiers) (transcript : String) :
    CrisisDetectionResult :=
  let st0 : List String × Severity := ([], Severity.none)
  let st1 := runTier transcript Severity.immediate tiers.immediate st0
  let st2 := if st1.2 ≠ Severity.immediate then runTier transcript Severity.high tiers.high st1
    else st1
  let st3 := if st2.2 = Severity.none then runTier transcript Severity.medium tiers.medium st2
    else st2
  { isCrisis := st3.2 ≠ Severity.none
    severity := st3.2
    matchedPatterns := st3.1 }

def detectCrisis (transcript : String) : CrisisDetectionResult :=
  detectCrisisWith CRISIS_PATTERNS transcript

/-! ### Cognitive pattern analyzer (`patternBasedAnalysis`, lines 208-490) -/

structure DistortionCategory where
  type : String
  patterns : List String
  description : String

structure Distortion where
  type : String
  quote : String
  explanation : String
deriving Repr, DecidableEq

structure CoachAdvice where
  immediateAction : String
  shortTermSteps : List String
  copingStrategy : String
  affirmation : String
deriving Repr, DecidableEq

structure CognitiveAnalysis where
  distortions : List Distortion
  realityChecks : List String
  reframes : List String
  overallAssessment : String
  coachAdvice : CoachAdvice
deriving Repr, DecidableEq

def COGNITIVE_DISTORTIONS : List DistortionCategory := [
  { type := "All-or-Nothing Thinking",
    patterns := ["always", "never", "completely", "totally", "nothing", "everything",
      "everyone", "no one"],
    description := "Seeing things in black-and-white categories with no middle ground" },
  { type := "Catastrophizing",
    patterns := ["worst", "terrible", "awful", "horrible", "disaster", "ruined", "end of",
      "can't handle", "unbearable"],
    description := "Expecting the worst possible outcome" },
  { type := "Mind Reading",
    patterns := ["they think", "everyone thinks", "people think", "they hate",
      "they don't like", "judging me", "looking at me"],
    description := "Assuming you know what others are thinking without evidence" },
  { type := "Fortune Telling",
    patterns := ["will fail", "won't work", "going to", "will never", "won't ever",
      "bound to", "definitely will"],
    description := "Predicting negative outcomes without evidence" },
  { type := "Should Statements",
    patterns := ["should", "shouldn't", "must", "have to", "ought to", "supposed to"],
    description := "Rigid rules about how things should be" },
  { type := "Labeling",
    patterns := ["i am a", "i'm such a", "i'm so", "what a", "loser", "failure", "idiot",
      "stupid", "worthless"],
    description := "Attaching a negative label to yourself or others" },
  { type := "Emotional Reasoning",
    patterns := ["i feel like", "feels like", "feel that", "because i feel"],
    description := "Believing something is true because you feel it strongly" },
  { type := "Personalization",
    patterns := ["my fault", "because of me", "i caused", "i made", "blame myself",
      "i'm responsible for"],
    description := "Taking responsibility for things outside your control" },
  { type := "Discounting the Positive",
    patterns := ["doesn't count", "anyone could", "just luck", "but", "yeah but",
      "that doesn't matter"],
    description := "Dismissing positive experiences or accomplishments" },
  { type := "Overgeneralization",
    patterns := ["this always happens", "every time", "nothing ever", "i always", "i never"],
    description := "Drawing broad conclusions from a single event" }]

/-- The distortion scan of `patternBasedAnalysis` (lines 331-348): for each
category, for each keyword, find the first sentence that matches it as a
whole word (the `break` ends the sentence loop at the first match), and push
the category/sentence pair unless the same pair was already recorded. -/
def foundDistortionsOf (sentences : List String) : List Distortion :=
  COGNITIVE_DISTORTIONS.foldl
    (fun found d =>
      d.patterns.foldl
        (fun found pat =>
          match sentences.find? (fun s => testWordPattern pat s) with
          | none => found
          | some s =>
            if found.any (fun e => e.type = d.type && e.quote = jsTrim s) then found
            else found ++ [{ type := d.type, quote := jsTrim s, explanation := d.description }])
        found)
    []

/-- The `case` arms of the reality-check `switch` (lines 354-397). -/
def realityCheckFor (t : String) : Option String :=
  if t = "All-or-Nothing Thinking" then some "Is there a middle ground or gray area here?"
  else if t = "Catastrophizing" then some "What is the most likely outcome, not the worst?"
  else if t = "Mind Reading" then
    some "What evidence do I actually have about what they're thinking?"
  else if t = "Fortune Telling" then some "Have my predictions been accurate in the past?"
  else if t = "Should Statements" then some "Says who? Where does this rule come from?"
  else if t = "Labeling" then some "Am I defining myself by one action or characteristic?"
  else if t = "Emotional Reasoning" then
    some "Just because I feel this way, does that make it true?"
  else if t = "Personalization" then some "What other factors might have contributed to this?"
  else if t = "Discounting the Positive" then
    some "Would I dismiss this accomplishment if a friend did it?"
  else if t = "Overgeneralization" then
    some "Is this truly always the case, or just sometimes?"
  else none

/-- The `case` arms of the reframe `switch` (lines 354-397). -/
def reframeFor (t : String) : Option String :=
  if t = "All-or-Nothing Thinking" then
    some "Consider: \"Sometimes\" or \"In this situation\" instead of absolutes"
  else if t = "Catastrophizing" then some "Even if this happens, what could I do to cope?"
  else if t = "Mind Reading" then
    some "I can't know for sure what others think without asking"
  else if t = "Fortune Telling" then
    some "The future is uncertain - many outcomes are possible"
  else if t = "Should Statements" then
    some "Try \"I would prefer\" or \"It would be nice if\" instead"
  else if t = "Labeling" then
    some "I am more than any single label - I have many qualities"
  else if t = "Emotional Reasoning" then
    some "My feelings are valid but they don't always reflect reality"
  else if t = "Personalization" then
    some "Many things are outside my control, and that's okay"
  else if t = "Discounting the Positive" then
    some "This positive thing is real and worth acknowledging"
  else if t = "Overgeneralization" then some "This is one instance, not a universal pattern"
  else none

def affirmations : List String := [
  "You showed courage by examining your thoughts. That self-awareness is a powerful tool for growth.",
  "Your feelings are valid, and so is your ability to work through them. You've handled difficult things before.",
  "Taking time to reflect on your thinking shows strength. You're building mental fitness with each practice.",
  "You are more resilient than you realize. This moment of reflection is proof of that.",
  "Progress isn't always linear, but you're moving forward by being here and doing this work."]

/-- `generateCoachAdvice` (lines 420-490).  `rand` models
`Math.floor(Math.random() * affirmations.length)`. -/
def generateCoachAdvice (distortions : List Distortion) (transcript : String) (rand : Nat) :
    CoachAdvice :=
  let immediateAction :=
    if lcIncludes transcript "anxious" || lcIncludes transcript "worried" ||
        lcIncludes transcript "stress" then
      "Ground yourself: Name 5 things you can see right now. This brings you back to the present moment."
    else if lcIncludes transcript "angry" || lcIncludes transcript "frustrated" ||
        lcIncludes transcript "mad" then
      "Step away from the situation for 2 minutes. Splash cold water on your face or step outside briefly."
    else if lcIncludes transcript "sad" || lcIncludes transcript "down" ||
        lcIncludes transcript "depressed" then
      "Change your physical state: Stand up, stretch your arms above your head, and take 3 deep breaths."
    else if lcIncludes transcript "overwhelm" then
      "Write down ONE thing you can control right now, no matter how small. Focus only on that."
    else
      "Take 3 slow, deep breaths right now. Inhale for 4 counts, hold for 4, exhale for 4."
  let distortionTypes := distortions.map (fun d => d.type)
  let shortTermSteps0 :=
    (if distortionTypes.contains "All-or-Nothing Thinking" then
      ["Write down 3 examples of \"gray areas\" in this situation - things that aren't completely good or bad"]
     else []) ++
    (if distortionTypes.contains "Catastrophizing" then
      ["List 3 times you expected the worst but things turned out okay"]
     else []) ++
    (if distortionTypes.contains "Mind Reading" then
      ["Choose one person you're assuming things about and ask them directly how they feel"]
     else []) ++
    (if distortionTypes.contains "Should Statements" then
      ["Replace one \"should\" in your thinking with \"I would like to\" and notice how it feels"]
     else []) ++
    (if distortionTypes.contains "Labeling" then
      ["Write down 5 positive qualities about yourself that contradict the negative label"]
     else [])
  let shortTermSteps1 :=
    if shortTermSteps0.length < 2 then
      shortTermSteps0 ++
        ["Journal for 5 minutes about what triggered these thoughts",
         "Share these thoughts with someone you trust - a friend, family member, or therapist",
         "Do one small act of self-care today: a walk, your favorite tea, or 10 minutes of rest"]
    else shortTermSteps0
  let copingStrategy :=
    if distortionTypes.contains "Catastrophizing" ||
        distortionTypes.contains "Fortune Telling" then
      "Practice the \"Best/Worst/Most Likely\" technique: Write down the best possible outcome, worst possible outcome, and most realistic outcome for your situation."
    else if distortionTypes.contains "Mind Reading" ||
        distortionTypes.contains "Personalization" then
      "Use the \"Evidence For/Against\" technique: Make two columns and list actual evidence that supports and contradicts your assumptions."
    else if distortionTypes.contains "Emotional Reasoning" then
      "Try the \"Name It to Tame It\" technique: Simply label your emotion out loud (\"I'm feeling anxious\") to reduce its intensity."
    else
      "Try box breathing: Breathe in for 4 seconds, hold for 4 seconds, breathe out for 4 seconds, hold for 4 seconds. Repeat 4 times."
  { immediateAction := immediateAction
    shortTermSteps := shortTermSteps1.take 3
    copingStrategy := copingStrategy
    affirmation := (affirmations.get? (rand % affirmations.length)).getD "" }

/-- `patternBasedAnalysis` (lines 327-417). -/
def patternBasedAnalysis (transcript : String) (rand : Nat) : CognitiveAnalysis :=
  let sentences := sentencesOf transcript
  let foundDistortions := foundDistortionsOf sentences
  let realityChecks := foundDistortions.filterMap (fun d => realityCheckFor d.type)
  let reframes := foundDistortions.filterMap (fun d => reframeFor d.type)
  let uniqueRealityChecks := jsSetDedup realityChecks
  let uniqueReframes := jsSetDedup reframes
  let n := foundDistortions.length
  let overallAssessment :=
    if n = 0 then
      "Your thoughts appear balanced. Continue practicing self-awareness and be kind to yourself."
    else
      "I noticed " ++ toString n ++
        " potential cognitive pattern(s) in your thoughts. Remember, noticing these patterns is the first step to changing them. You're doing great by taking time to examine your thinking."
  { distortions := foundDistortions.take 5
    realityChecks := uniqueRealityChecks.take 4
    reframes := uniqueReframes.take 4
    overallAssessment := overallAssessment
    coachAdvice := generateCoachAdvice foundDistortions transcript rand }

/-- `analyzeThoughts` (lines 300-325).  The remote call (network round trip,
JSON bracket extraction and parse) is modelled by an oracle argument:
`some v` means the `try` block returned `v`; `none` means anything in it
threw (no key check happens first, then `try`/`catch` falls back). -/
def analyzeThoughts (transcript : String) (apiKey : String)
    (remote : Option CognitiveAnalysis) (rand : Nat) : CognitiveAnalysis :=
  if apiKey = "" then patternBasedAnalysis transcript rand
  else
    match remote with
    | some v => v
    | none => patternBasedAnalysis transcript rand

/-! ### Task/urge extractor (`patternBasedExtraction`, lines 536-605)

The trigger regexes carry capture groups ("i need to (.+)" etc.).  A task
pattern is modelled as a function from a sentence to
`Option (Option String)`: `none` = the regex does not match; `some none` =
it matches but its last capture group is undefined; `some (some text)` = it
matches and captures `text`.  An urge pattern is its boolean test plus the
fixed base intensity.  The extraction loop itself — first matching pattern
per sentence, the 3-to-100-character filter, case-insensitive title dedup,
capitalization, urgency tagging, and the 10/5 caps — is embedded concretely
and proved for every choice of pattern tables. -/

structure ExtractedTask where
  title : String
  priority : String
deriving Repr, DecidableEq

structure ExtractedUrge where
  urge : String
  intensity : Int
  context : String
deriving Repr, DecidableEq

structure ExtractedItems where
  tasks : List ExtractedTask
  urges : List ExtractedUrge
deriving Repr, DecidableEq

abbrev TaskPattern := String → Option (Option String)
abbrev UrgePattern := (String → Bool) × Int

/-- Process one sentence of the task loop (lines 570-586): the first
matching pattern wins (the `break`); its captured text, trimmed, is added
when it is 4..99 characters long and no existing title equals it
case-insensitively;  `urgent`/`asap` in the sentence makes it high priority. -/
def taskStepExtract (taskPatterns : List TaskPattern) (tasks : List ExtractedTask)
    (sentence : String) : List ExtractedTask :=
  match taskPatterns.findSome? (fun p => p sentence) with
  | none => tasks
  | some none => tasks
  | some (some cap) =>
    let taskText := jsTrim cap
    if taskText ≠ "" ∧ taskText.length > 3 ∧ taskText.length < 100 then
      if tasks.any (fun t => lcString t.title = lcString taskText) then tasks
      else
        tasks ++ [{ title := capitalize taskText
                    priority := if lcIncludes sentence "urgent" || lcIncludes sentence "asap"
                      then "high" else "medium" }]
    else tasks

/-- Process one sentence of the urge loop (lines 588-598): first matching
urge pattern wins, recording the whole trimmed sentence. -/
def urgeStepExtract (urgePatterns : List UrgePattern) (urges : List ExtractedUrge)
    (sentence : String) : List ExtractedUrge :=
  match urgePatterns.find? (fun p => p.1 sentence) with
  | none => urges
  | some p =>
    urges ++ [{ urge := jsTrim sentence, intensity := p.2
                context := "Detected from voice input" }]

/-- The whole `for (const sentence of sentences)` loop (lines 569-599). -/
def extractionFold (taskPatterns : List TaskPattern) (urgePatterns : List UrgePattern)
    (sentences : List String) : List ExtractedTask × List ExtractedUrge :=
  sentences.foldl
    (fun (st : List ExtractedTask × List ExtractedUrge) sentence =>
      (taskStepExtract taskPatterns st.1 sentence,
       urgeStepExtract urgePatterns st.2 sentence))
    ([], [])

/-- `patternBasedExtraction` (lines 536-605). -/
def patternBasedExtraction (taskPatterns : List TaskPattern)
    (urgePatterns : List UrgePattern) (transcript : String) : ExtractedItems :=
  let st := extractionFold taskPatterns urgePatterns (sentencesOf transcript)
  { tasks := st.1.take 10, urges := st.2.take 5 }

/-- `extractTasksAndUrges` (lines 511-534), with the remote call as an
oracle argument as in `analyzeThoughts`. -/
def extractTasksAndUrges (taskPatterns : List TaskPattern)
    (urgePatterns : List UrgePattern) (transcript : String) (apiKey : String)
    (remote : Option ExtractedItems) : ExtractedItems :=
  if apiKey = "" then patternBasedExtraction taskPatterns urgePatterns transcript
  else
    match remote with
    | some v => v
    | none => patternBasedExtraction taskPatterns urgePatterns transcript

/-! ### Task prioritization (`localPrioritization`, lines 992-1075) -/

inductive SuggestedAction
  | do_now | schedule | break_down | defer | quick_win
deriving Repr, DecidableEq

structure PrioritizedTask where
  taskId : Nat
  title : String
  score : Int
  reasoning : String
  suggestedAction : SuggestedAction
  tags : List String
deriving Repr, DecidableEq

structure PrioritizationContext where
  currentEnergy : Int
  timeAvailable : Int
  currentHour : Int
deriving Repr, DecidableEq

/-- `TaskForPrioritization` (lines 883-892).  `deadline` is the millisecond
timestamp of `new Date(task.deadline)`; `steps` keeps only each step's
`completed` flag. -/
structure TaskForPrioritization where
  id : Nat
  title : String
  deadline : Option Int
  resistance : Int
  estimatedMinutes : Option Int
  steps : List Bool
  status : String
deriving Repr, DecidableEq

def msPerDay : Int := 1000 * 60 * 60 * 24

/-- Score one task (the body of the `map` in lines 998-1073).  `now` is the
millisecond clock value of `new Date()`.  `daysUntil < k` on the real-valued
`msDiff / msPerDay` is equivalent to `msDiff < k * msPerDay`. -/
def scoreTask (now : Int) (context : PrioritizationContext)
    (task : TaskForPrioritization) : PrioritizedTask :=
  let score0 : Int := 50
  let st1 : Int × List String × SuggestedAction × List String :=
    match task.deadline with
    | none => (score0, [], SuggestedAction.schedule, [])
    | some d =>
      let msDiff := d - now
      if msDiff < 0 then (score0 + 30, ["overdue"], SuggestedAction.schedule, ["Overdue!"])
      else if msDiff < msPerDay then
        (score0 + 25, ["urgent"], SuggestedAction.schedule, ["Due today"])
      else if msDiff < 3 * msPerDay then
        (score0 + 15, ["soon"], SuggestedAction.schedule, ["Due soon"])
      else (score0, [], SuggestedAction.schedule, [])
  let resistanceVsEnergy := task.resistance - context.currentEnergy * 2
  let st2 :=
    if resistanceVsEnergy > 3 then
      (st1.1 - 10, st1.2.1 ++ ["hard"], SuggestedAction.break_down,
       st1.2.2.2 ++ ["High resistance, consider breaking down"])
    else if resistanceVsEnergy < -2 ∧ jsOrInt task.estimatedMinutes 30 ≤ 15 then
      (st1.1 + 10, st1.2.1 ++ ["quick-win"], SuggestedAction.quick_win,
       st1.2.2.2 ++ ["Quick win for momentum"])
    else (st1.1, st1.2.1, st1.2.2.1, st1.2.2.2)
  let st3 :=
    if jsOrInt task.estimatedMinutes 30 ≤ context.timeAvailable then
      (st2.1 + 5,
       (if jsOrInt task.estimatedMinutes 30 ≤ 10 then st2.2.1 ++ ["short"] else st2.2.1),
       st2.2.2.1, st2.2.2.2)
    else (st2.1 - 5, st2.2.1, st2.2.2.1, st2.2.2.2 ++ ["May need more time"])
  let completedSteps := (task.steps.filter (fun b => b)).length
  let st4 :=
    if task.steps.length > 0 ∧ completedSteps > 0 ∧ completedSteps < task.steps.length then
      (st3.1 + 10, st3.2.1 ++ ["in-progress"], st3.2.2.1, st3.2.2.2 ++ ["Already started"])
    else st3
  let score := st4.1
  let suggestedAction :=
    if score ≥ 70 ∧ resistanceVsEnergy ≤ 2 then SuggestedAction.do_now
    else if task.resistance ≥ 7 ∧ task.steps.length = 0 then SuggestedAction.break_down
    else if score < 40 then SuggestedAction.defer
    else st4.2.2.1
  { taskId := task.id
    title := task.title
    score := min 100 (max 0 score)
    reasoning := if st4.2.2.2.length > 0 then String.intercalate ". " st4.2.2.2
      else "Regular priority"
    suggestedAction := suggestedAction
    tags := st4.2.1 }

/-- `localPrioritization` (lines 992-1075): score each task, then
`sort((a, b) => b.score - a.score)` (descending by score). -/
def localPrioritization (now : Int) (tasks : List TaskForPrioritization)
    (context : PrioritizationContext) : List PrioritizedTask :=
  jsSort (fun a b => decide (b.score ≤ a.score)) (tasks.map (scoreTask now context))

/-- The `status === 'pending' || status === 'in_progress'` filter of
`prioritizeTasks` (line 926). -/
def activeTasksOf (tasks : List TaskForPrioritization) : List TaskForPrioritization :=
  tasks.filter (fun t => t.status = "pending" || t.status = "in_progress")

/-- `prioritizeTasks` (lines 920-987), remote call as an oracle. -/
def prioritizeTasks (now : Int) (tasks : List TaskForPrioritization)
    (context : PrioritizationContext) (apiKey : String)
    (remote : Option (List PrioritizedTask)) : List PrioritizedTask :=
  let activeTasks := activeTasksOf tasks
  if activeTasks.length = 0 then []
  else if apiKey = "" then localPrioritization now activeTasks context
  else
    match remote with
    | some v => v
    | none => localPrioritization now activeTasks context

/-! ### Micro-step generation (`generateMicroSteps`, lines 827-865) -/

structure GeneratedStep where
  text : String
  estimatedMinutes : Int
deriving Repr, DecidableEq

/-- A step object of the parsed remote JSON: both fields may be absent. -/
structure RawStep where
  text : Option String
  estimatedMinutes : Option Int
deriving Repr, DecidableEq

/-- The validation/normalization of the parsed steps (lines 861-864). -/
def normalizeSteps (steps : List RawStep) : List GeneratedStep :=
  (steps.map (fun step =>
    { text := jsTrim (step.text.getD "")
      estimatedMinutes := min (max (jsOrInt step.estimatedMinutes 3) 1) 10 })).filter
    (fun step => step.text.length > 0)

/-- `generateMicroSteps` (lines 827-865).  With no API key it throws
`API_KEY_REQUIRED` before any remote work; a remote failure (`none` oracle:
network error, missing brackets, bad JSON, missing `steps` array) is
re-thrown, not recovered. -/
def generateMicroSteps (title : String) (description : Option String) (resistance : Int)
    (apiKey : String) (remote : Option (List RawStep)) : Except String (List GeneratedStep) :=
  if apiKey = "" then Except.error "API_KEY_REQUIRED"
  else
    match remote with
    | none => Except.error "REMOTE_FAILED"
    | some steps => Except.ok (normalizeSteps steps)

/-! ### Energy pattern analyzer (`analyzeEnergyPatterns`, energyAnalysis.ts)

A `MoodLog` carries its millisecond timestamp.  The hour-of-day of
`new Date(t).getHours()` is modelled in UTC as `t / 3600000 % 24`
(time-zone choice does not affect any property proved below), and the
cutoff `new Date(); cutoffDate.setDate(getDate() - days)` is modelled as
`now - days * msPerDay`. -/

structure MoodLog where
  mood : Int
  energy : Int
  timestamp : Int
deriving Repr, DecidableEq

structure HourlyEnergy where
  hour : Nat
  avgEnergy : Rat
  sampleCount : Nat
deriving Repr, DecidableEq

structure EnergyPattern where
  hourlyAverages : List HourlyEnergy
  peakHours : List Nat
  lowHours : List Nat
  recommendations : List String
  overallAverage : Rat
deriving Repr, DecidableEq

def hourOfTimestamp (t : Int) : Nat :=
  ((t / 3600000) % 24).toNat

/-- `formatHour` (energyAnalysis.ts lines 210-215). -/
def formatHour (hour : Nat) : String :=
  if hour = 0 then "12 AM"
  else if hour = 12 then "12 PM"
  else if hour < 12 then toString hour ++ " AM"
  else toString (hour - 12) ++ " PM"

/-- The consecutive-hour grouping loop of `formatHourRanges` (lines 227-241)
on the ascending-sorted list: accumulate `(rangeStart, rangeEnd)` runs. -/
def groupRuns (s e : Nat) : List Nat → List (Nat × Nat)
  | [] => [(s, e)]
  | x :: xs => if x = e + 1 then groupRuns s x xs else (s, e) :: groupRuns x x xs

/-- `formatHourRanges` (lines 217-244). -/
def formatHourRanges (hours : List Nat) : String :=
  match hours with
  | [] => ""
  | [h] => formatHour h
  | _ =>
    match jsSort (fun a b => decide (a ≤ b)) hours with
    | [] => ""
    | h :: t =>
      String.intercalate ", "
        ((groupRuns h h t).map (fun r =>
          if r.1 = r.2 then formatHour r.1
          else formatHour r.1 ++ "-" ++ formatHour r.2))

/-- Logs of the last `days` days (lines 35-38). -/
def recentLogsOf (now : Int) (days : Int) (moodLogs : List MoodLog) : List MoodLog :=
  moodLogs.filter (fun log => now - days * msPerDay ≤ log.timestamp)

/-- The hourly buckets (lines 29-46): energies of the recent logs whose
hour-of-day equals `h`, in log order; only hours 6..22 get a bucket. -/
def hourlyBucket (recentLogs : List MoodLog) (h : Nat) : List Int :=
  (recentLogs.filter (fun log => hourOfTimestamp log.timestamp = h)).map
    (fun log => log.energy)

/-- `hourlyAverages` (lines 49-58): per-hour average and sample count for
hours 6..22, dropping empty buckets.  (`Object.entries` enumerates the
integer keys 6..22 ascending, and the final `sort` by hour keeps that
order.) -/
def hourlyAveragesOf (recentLogs : List MoodLog) : List HourlyEnergy :=
  (List.range' 6 17).filterMap (fun h =>
    if (hourlyBucket recentLogs h).length = 0 then none
    else some { hour := h
                avgEnergy := ((hourlyBucket recentLogs h).foldl (· + ·) 0 : Int) /
                  ((hourlyBucket recentLogs h).length : Rat)
                sampleCount := (hourlyBucket recentLogs h).length })

/-- The ascending sort of the positive per-hour averages (lines 67-68). -/
def sortedEnergiesOf (hourlyAverages : List HourlyEnergy) : List Rat :=
  jsSort (fun a b => decide (a ≤ b))
    ((hourlyAverages.map (fun h => h.avgEnergy)).filter (fun e => 0 < e))

/-- `sortedEnergies[Math.floor(sortedEnergies.length * 0.75)] || 4` (line 69). -/
def p75Of (hourlyAverages : List HourlyEnergy) : Rat :=
  let sortedEnergies := sortedEnergiesOf hourlyAverages
  jsOrRat (sortedEnergies.get? (sortedEnergies.length * 3 / 4)) 4

/-- `sortedEnergies[Math.floor(sortedEnergies.length * 0.25)] || 2` (line 70). -/
def p25Of (hourlyAverages : List HourlyEnergy) : Rat :=
  let sortedEnergies := sortedEnergiesOf hourlyAverages
  jsOrRat (sortedEnergies.get? (sortedEnergies.length / 4)) 2

/-- `analyzeEnergyPatterns` (energyAnalysis.ts lines 27-113). -/
def analyzeEnergyPatterns (now : Int) (moodLogs : List MoodLog) (days : Int := 14) :
    EnergyPattern :=
  let recentLogs := recentLogsOf now days moodLogs
  let hourlyAverages := hourlyAveragesOf recentLogs
  let allEnergies := recentLogs.map (fun l => l.energy)
  let overallAverage : Rat :=
    if allEnergies.length > 0 then
      (allEnergies.foldl (· + ·) 0 : Int) / (allEnergies.length : Rat)
    else 3
  let p75 := p75Of hourlyAverages
  let p25 := p25Of hourlyAverages
  let peakHours := (hourlyAverages.filter
    (fun h => p75 ≤ h.avgEnergy ∧ 2 ≤ h.sampleCount)).map (fun h => h.hour)
  let lowHours := (hourlyAverages.filter
    (fun h => h.avgEnergy ≤ p25 ∧ 2 ≤ h.sampleCount)).map (fun h => h.hour)
  let recommendations :=
    (if peakHours.length > 0 then
      ["Your peak energy times are around " ++ formatHourRanges peakHours ++
        ". Schedule challenging tasks during these hours."]
     else []) ++
    (if lowHours.length > 0 then
      ["Energy tends to dip around " ++ formatHourRanges lowHours ++
        ". Save these for routine tasks or take breaks."]
     else []) ++
    (if peakHours.any (fun h => 9 ≤ h ∧ h ≤ 11) then
      ["You're a morning person! Tackle your hardest tasks before lunch."]
     else if peakHours.any (fun h => 14 ≤ h ∧ h ≤ 17) then
      ["Your energy peaks in the afternoon. Consider protecting this time for deep work."]
     else if peakHours.any (fun h => 19 ≤ h ∧ h ≤ 22) then
      ["You're an evening person. Use nighttime for creative or focused work."]
     else []) ++
    (if recentLogs.length < 5 then
      ["Log more mood/energy check-ins to get better scheduling insights!"]
     else [])
  { hourlyAverages := hourlyAverages
    peakHours := peakHours
    lowHours := lowHours
    recommendations := recommendations
    overallAverage := overallAverage }

/-! ### Time-block auto-scheduler (`handleSimpleAutoSchedule`, TaskSidebar)

Occupied slots and block windows are `[start, stop)` intervals in minutes
since midnight (the exact quantities the source computes from the "HH:MM"
strings, and writes back with `padStart` formatting). -/

structure Interval where
  start : Nat
  stop : Nat
deriving Repr, DecidableEq

/-- The conflict test used throughout the scheduler:
`startMin < slot.end && endMin > slot.start`. -/
def overlapsI (a b : Interval) : Bool :=
  a.start < b.stop && a.stop > b.start

/-- A task as the scheduler sees it. -/
structure SchedTask where
  id : Nat
  title : String
  resistance : Int
  estimatedMinutes : Option Nat
deriving Repr, DecidableEq

/-- A created time block; `startMin`/`stopMin` are the minute values behind
the emitted `startTime`/`endTime` strings. -/
structure CreatedBlock where
  title : String
  startMin : Nat
  stopMin : Nat
  color : String
  taskId : Nat
deriving Repr, DecidableEq

structure SchedState where
  occupiedSlots : List Interval
  currentMinute : Nat
  created : List CreatedBlock
deriving Repr, DecidableEq

/-- The `while` probe of lines 154-161: advance in 30-minute steps from the
cursor until the interval is conflict-free, breaking out (with the bumped
value) as soon as the candidate reaches 20:00 = 1200 minutes. -/
def probeSlot (occupiedSlots : List Interval) (duration : Nat) (slotStart : Nat) : Nat :=
  if occupiedSlots.any (fun slot => overlapsI ⟨slotStart, slotStart + duration⟩ slot) then
    let next := slotStart + 30
    if 1200 ≤ next then next
    else probeSlot occupiedSlots duration next
  else slotStart
termination_by 1200 - slotStart
decreasing_by omega

/-- `const duration = task.estimatedMinutes || 30` (line 126). -/
def effDuration (task : SchedTask) : Nat := jsOrNat task.estimatedMinutes 30

/-- `bestHour` (lines 129-141): the cursor hour, overridden by the first
conflict-free peak hour for a high-resistance task. -/
def bestHourFor (peakHours : List Nat) (occ : List Interval) (task : SchedTask)
    (currentMinute : Nat) : Nat :=
  if task.resistance ≥ 7 ∧ peakHours.length > 0 then
    match peakHours.find? (fun h =>
      !(occ.any (fun slot => overlapsI ⟨h * 60, h * 60 + effDuration task⟩ slot))) with
    | some h => h
    | none => currentMinute / 60
  else currentMinute / 60

/-- `slotStart` after conflict resolution (lines 144-161): the best hour's
start (`slotStart0 = bestHour * 60`) if free, else the linear probe from the
cursor. -/
def chosenSlotStart (peakHours : List Nat) (occ : List Interval) (task : SchedTask)
    (currentMinute : Nat) : Nat :=
  if occ.any (fun slot =>
      overlapsI ⟨bestHourFor peakHours occ task currentMinute * 60,
        bestHourFor peakHours occ task currentMinute * 60 + effDuration task⟩ slot) then
    probeSlot occ (effDuration task) currentMinute
  else bestHourFor peakHours occ task currentMinute * 60

/-- One iteration of the `for (const task of sortedTasks.slice(0, 5))` loop
(lines 125-187): skip the task when the chosen slot reaches 20:00, otherwise
emit the block (`endMinutes = slotStart + duration`), mark its interval
occupied, and advance the cursor to `endMinutes + 15`. -/
def scheduleStep (peakHours : List Nat) (st : SchedState) (task : SchedTask) : SchedState :=
  if 1200 ≤ chosenSlotStart peakHours st.occupiedSlots task st.currentMinute then st
  else
    { occupiedSlots := st.occupiedSlots ++
        [⟨chosenSlotStart peakHours st.occupiedSlots task st.currentMinute,
          chosenSlotStart peakHours st.occupiedSlots task st.currentMinute +
            effDuration task⟩]
      currentMinute := chosenSlotStart peakHours st.occupiedSlots task st.currentMinute +
        effDuration task + 15
      created := st.created ++
        [{ title := task.title
           startMin := chosenSlotStart peakHours st.occupiedSlots task st.currentMinute
           stopMin := chosenSlotStart peakHours st.occupiedSlots task st.currentMinute +
             effDuration task
           color := if task.resistance ≥ 7 then "#f43f5e"
             else if task.resistance ≥ 4 then "#f97316" else "#22c55e"
           taskId := task.id }] }

/-- `handleSimpleAutoSchedule` (part_002 lines 104-194): sort the
unscheduled tasks by descending resistance, then greedily place up to 5 of
them starting from the 9:00 cursor.  `existingBlocks` are the occupied
intervals parsed from the day's blocks; `peakHours` comes from the energy
pattern.  (With no unscheduled tasks or no energy pattern the handler
returns before creating anything.) -/
def handleSimpleAutoSchedule (unscheduledTasks : List SchedTask)
    (existingBlocks : List Interval) (peakHours : List Nat) : List CreatedBlock :=
  if unscheduledTasks.length = 0 then []
  else
    let sortedTasks := jsSort (fun a b => decide (b.resistance ≤ a.resistance)) unscheduledTasks
    let init : SchedState := { occupiedSlots := existingBlocks, currentMinute := 9 * 60
                               created := [] }
    ((sortedTasks.take 5).foldl (scheduleStep peakHours) init).created

/-! ### Manual drag-and-drop placement (`handleDragEnd`, TimePage) -/

/-- `Math.round(minute / 15) * 15` for a natural minute value
(`Math.round` is floor of `x + 1/2`). -/
def snapTo15 (minute : Nat) : Nat :=
  (2 * minute + 15) / 30 * 15

/-- The task-drop `handleDragEnd` (TimePage, lines 758-800): snap the drop
minute (`startMinutes = hour * 60 + snappedMinute`), take the task's
duration (default 30, `endMinutes = startMinutes + duration`), and create a
block unless `startHour < 6 || endHour > 22` where
`startHour = floor(startMinutes / 60)` and `endHour = floor(endMinutes / 60)`.
Returns the created block, `none` for the rejected no-op. -/
def handleDragEnd (task : SchedTask) (dropHour dropMinute : Nat) : Option CreatedBlock :=
  if (dropHour * 60 + snapTo15 dropMinute) / 60 < 6 ∨
      (dropHour * 60 + snapTo15 dropMinute + effDuration task) / 60 > 22 then none
  else some
    { title := task.title
      startMin := dropHour * 60 + snapTo15 dropMinute
      stopMin := dropHour * 60 + snapTo15 dropMinute + effDuration task
      color := if task.resistance ≥ 7 then "#f43f5e"
        else if task.resistance ≥ 4 then "#f97316" else "#22c55e"
      taskId := task.id }

/-! ## Theorems

First the shared helper lemmas about the embedded operations, then one
theorem per verified claim. -/

theorem runTier_snd (t : String) (sev : Severity) (tier : List CrisisPattern)
    (st : List String × Severity) :
    (runTier t sev tier st).2 = if tier.any (fun p => p.test t) then sev else st.2 := by
  induction tier generalizing st with
  | nil => simp [runTier]
  | cons p ps ih =>
    have h0 : runTier t sev (p :: ps) st =
        runTier t sev ps (if p.test t then (st.1 ++ [p.source], sev) else st) := rfl
    rw [h0]
    by_cases h : p.test t
    · simp only [h, if_true, ih, List.any_cons, Bool.true_or, if_true]
      split <;> rfl
    · simp [h, ih]

theorem runTier_fst (t : String) (sev : Severity) (tier : List CrisisPattern)
    (st : List String × Severity) :
    (runTier t sev tier st).1 =
      st.1 ++ (tier.filter (fun p => p.test t)).map (fun p => p.source) := by
  induction tier generalizing st with
  | nil => simp [runTier]
  | cons p ps ih =>
    have h0 : runTier t sev (p :: ps) st =
        runTier t sev ps (if p.test t then (st.1 ++ [p.source], sev) else st) := rfl
    rw [h0]
    by_cases h : p.test t
    · simp [h, ih]
    · simp [h, ih]

/-- Full description of `detectCrisisWith`: the first tier with a match
determines the severity and contributes exactly its matching patterns. -/
theorem detectCrisisWith_cases (tiers : CrisisPatternTiers) (t : String) :
    detectCrisisWith tiers t =
      if tiers.immediate.any (fun p => p.test t) then
        { isCrisis := true, severity := Severity.immediate
          matchedPatterns :=
            (tiers.immediate.filter (fun p => p.test t)).map (fun p => p.source) }
      else if tiers.high.any (fun p => p.test t) then
        { isCrisis := true, severity := Severity.high
          matchedPatterns :=
            (tiers.high.filter (fun p => p.test t)).map (fun p => p.source) }
      else if tiers.medium.any (fun p => p.test t) then
        { isCrisis := true, severity := Severity.medium
          matchedPatterns :=
            (tiers.medium.filter (fun p => p.test t)).map (fun p => p.source) }
      else { isCrisis := false, severity := Severity.none, matchedPatterns := [] } := by
  have fnil : ∀ (l : List CrisisPattern), l.any (fun p => p.test t) = false →
      l.filter (fun p => p.test t) = [] := by
    intro l hl
    refine List.filter_eq_nil_iff.mpr ?_
    intro a ha
    simpa using List.any_eq_false.mp hl a ha
  unfold detectCrisisWith
  by_cases h1 : tiers.immediate.any (fun p => p.test t)
  · have e1 : runTier t Severity.immediate tiers.immediate ([], Severity.none) =
        ((tiers.immediate.filter (fun p => p.test t)).map (fun p => p.source),
          Severity.immediate) := by
      refine Prod.ext ?_ ?_
      · simpa using runTier_fst t Severity.immediate tiers.immediate ([], Severity.none)
      · simpa [h1] using runTier_snd t Severity.immediate tiers.immediate ([], Severity.none)
    rw [if_pos h1]
    simp only [e1]
    rfl
  · have e1 : runTier t Severity.immediate tiers.immediate ([], Severity.none) =
        ([], Severity.none) := by
      refine Prod.ext ?_ ?_
      · have h1f : (tiers.immediate.any (fun p => p.test t)) = false := by simpa using h1
        simpa [fnil _ h1f] using
          runTier_fst t Severity.immediate tiers.immediate ([], Severity.none)
      · simpa [h1] using runTier_snd t Severity.immediate tiers.immediate ([], Severity.none)
    rw [if_neg h1]
    simp only [e1]
    by_cases h2 : tiers.high.any (fun p => p.test t)
    · have e2 : runTier t Severity.high tiers.high ([], Severity.none) =
          ((tiers.high.filter (fun p => p.test t)).map (fun p => p.source),
            Severity.high) := by
        refine Prod.ext ?_ ?_
        · simpa using runTier_fst t Severity.high tiers.high ([], Severity.none)
        · simpa [h2] using runTier_snd t Severity.high tiers.high ([], Severity.none)
      rw [if_pos h2]
      simp only [e2]
      rfl
    · have e2 : runTier t Severity.high tiers.high ([], Severity.none) =
          ([], Severity.none) := by
        refine Prod.ext ?_ ?_
        · have h2f : (tiers.high.any (fun p => p.test t)) = false := by simpa using h2
          simpa [fnil _ h2f] using runTier_fst t Severity.high tiers.high ([], Severity.none)
        · simpa [h2] using runTier_snd t Severity.high tiers.high ([], Severity.none)
      rw [if_neg h2]
      simp only [e2]
      by_cases h3 : tiers.medium.any (fun p => p.test t)
      · have e3 : runTier t Severity.medium tiers.medium ([], Severity.none) =
            ((tiers.medium.filter (fun p => p.test t)).map (fun p => p.source),
              Severity.medium) := by
          refine Prod.ext ?_ ?_
          · simpa using runTier_fst t Severity.medium tiers.medium ([], Severity.none)
          · simpa [h3] using runTier_snd t Severity.medium tiers.medium ([], Severity.none)
        rw [if_pos h3]
        simp [e3]
      · have e3 : runTier t Severity.medium tiers.medium ([], Severity.none) =
            ([], Severity.none) := by
          refine Prod.ext ?_ ?_
          · have h3f : (tiers.medium.any (fun p => p.test t)) = false := by simpa using h3
            simpa [fnil _ h3f] using
              runTier_fst t Severity.medium tiers.medium ([], Severity.none)
          · simpa [h3] using runTier_snd t Severity.medium tiers.medium ([], Severity.none)
        rw [if_neg h3]
        simp [e3]

/-- C3: for every input text that matches at least one pattern of the
`immediate` tier, `detectCrisis` returns severity `immediate` (and
`isCrisis = true`), regardless of which `high`/`medium` patterns the text
also matches. -/
theorem detectCrisis_immediate_dominates (t : String)
    (h : ∃ p ∈ CRISIS_PATTERNS.immediate, p.test t) :
    (detectCrisis t).severity = Severity.immediate ∧ (detectCrisis t).isCrisis = true := by
  have h1 : CRISIS_PATTERNS.immediate.any (fun p => p.test t) :=
    List.any_eq_true.mpr (by simpa using h)
  rw [detectCrisis, detectCrisisWith_cases, if_pos h1]
  exact ⟨rfl, rfl⟩

theorem detectCrisis_immediate_dominates_witness :
    (∃ p ∈ CRISIS_PATTERNS.immediate, p.test "I am suicidal and I give up") ∧
    ((detectCrisis "I am suicidal and I give up").severity = Severity.immediate ∧
      (detectCrisis "I am suicidal and I give up").isCrisis = true) :=
  ⟨by decide, detectCrisis_immediate_dominates "I am suicidal and I give up" (by decide)⟩

/-- C10: `matchedPatterns` only ever contains patterns of the single tier
matching the returned severity, and it is nonempty exactly when `isCrisis`
is true. -/
theorem detectCrisis_matched_single_tier (t : String) :
    ((detectCrisis t).matchedPatterns ≠ [] ↔ (detectCrisis t).isCrisis = true) ∧
    (∀ s ∈ (detectCrisis t).matchedPatterns,
      s ∈ (match (detectCrisis t).severity with
           | Severity.immediate => CRISIS_PATTERNS.immediate
           | Severity.high => CRISIS_PATTERNS.high
           | Severity.medium => CRISIS_PATTERNS.medium
           | Severity.low => []
           | Severity.none => []).map (fun (p : CrisisPattern) => p.source)) := by
  have key : ∀ (tier : List CrisisPattern), tier.any (fun p => p.test t) →
      ((tier.filter (fun p => p.test t)).map (fun (p : CrisisPattern) => p.source) ≠ [] ∧
        ∀ s ∈ (tier.filter (fun p => p.test t)).map (fun (p : CrisisPattern) => p.source),
          s ∈ tier.map (fun (p : CrisisPattern) => p.source)) := by
    intro tier htier
    constructor
    · obtain ⟨p, hp, hpt⟩ := List.any_eq_true.mp htier
      have : p ∈ tier.filter (fun p => p.test t) := List.mem_filter.mpr ⟨hp, hpt⟩
      intro hnil
      rw [List.map_eq_nil_iff] at hnil
      rw [hnil] at this
      exact absurd this (List.not_mem_nil p)
    · exact List.map_subset _ (List.filter_sublist _).subset
  rw [detectCrisis, detectCrisisWith_cases]
  by_cases h1 : CRISIS_PATTERNS.immediate.any (fun p => p.test t)
  · rw [if_pos h1]
    exact ⟨by simpa using ((key _ h1).1), by simpa using (key _ h1).2⟩
  · rw [if_neg h1]
    by_cases h2 : CRISIS_PATTERNS.high.any (fun p => p.test t)
    · rw [if_pos h2]
      exact ⟨by simpa using ((key _ h2).1), by simpa using (key _ h2).2⟩
    · rw [if_neg h2]
      by_cases h3 : CRISIS_PATTERNS.medium.any (fun p => p.test t)
      · rw [if_pos h3]
        exact ⟨by simpa using ((key _ h3).1), by simpa using (key _ h3).2⟩
      · rw [if_neg h3]
        simp

theorem detectCrisis_matched_single_tier_witness :
    ("\\bgive up\\b" ∈ (detectCrisis "I give up").matchedPatterns) ∧
    ("\\bgive up\\b" ∈ (match (detectCrisis "I give up").severity with
         | Severity.immediate => CRISIS_PATTERNS.immediate
         | Severity.high => CRISIS_PATTERNS.high
         | Severity.medium => CRISIS_PATTERNS.medium
         | Severity.low => []
         | Severity.none => []).map (fun (p : CrisisPattern) => p.source)) :=
  ⟨by decide,
    (detectCrisis_matched_single_tier "I give up").2 "\\bgive up\\b" (by decide)⟩

/-- C5 (corrected, counterexample): the scan is category-major, not
sentence-major.  On this transcript the first returned distortion quotes the
second sentence while the second returned distortion quotes the first
sentence, so the returned list is not "the first 5 found in sentence
order". -/
theorem patternBasedAnalysis_not_sentence_order :
    ((patternBasedAnalysis "It rains every time. This is the worst." 0).distortions.map
      (fun d => d.quote) = ["This is the worst", "It rains every time"]) ∧
    (sentencesOf "It rains every time. This is the worst.").map jsTrim =
      ["It rains every time", "This is the worst"] := by
  constructor <;> rfl

/-- C5 (amended): `patternBasedAnalysis` returns at most 5 distortions, and
the returned list is the prefix (the first entries) of the full scan list
`foundDistortionsOf`, whose order is distortion-category order (then keyword
order within a category), not sentence order. -/
theorem patternBasedAnalysis_distortion_cap (t : String) (rand : Nat) :
    (patternBasedAnalysis t rand).distortions.length ≤ 5 ∧
    (patternBasedAnalysis t rand).distortions <+: foundDistortionsOf (sentencesOf t) := by
  constructor
  · show ((foundDistortionsOf (sentencesOf t)).take 5).length ≤ 5
    rw [List.length_take]
    exact min_le_left _ _
  · show (foundDistortionsOf (sentencesOf t)).take 5 <+: foundDistortionsOf (sentencesOf t)
    exact List.take_prefix _ _

theorem scoreTask_score_bounds (now : Int) (context : PrioritizationContext)
    (task : TaskForPrioritization) :
    0 ≤ (scoreTask now context task).score ∧ (scoreTask now context task).score ≤ 100 := by
  have h : ∃ s, (scoreTask now context task).score = min 100 (max 0 s) := ⟨_, rfl⟩
  obtain ⟨s, hs⟩ := h
  rw [hs]
  constructor
  · exact le_min (by norm_num) (le_max_left 0 s)
  · exact min_le_left _ _

/-- C6: every `PrioritizedTask` produced by `localPrioritization` has score
in [0, 100], and the returned list is sorted in descending score order. -/
theorem localPrioritization_clamped_sorted (now : Int)
    (tasks : List TaskForPrioritization) (context : PrioritizationContext) :
    (∀ p ∈ localPrioritization now tasks context, 0 ≤ p.score ∧ p.score ≤ 100) ∧
    (localPrioritization now tasks context).Pairwise (fun a b => b.score ≤ a.score) := by
  constructor
  · intro p hp
    rw [localPrioritization, mem_jsSort] at hp
    obtain ⟨task, _, rfl⟩ := List.mem_map.mp hp
    exact scoreTask_score_bounds now context task
  · have hp := pairwise_jsSort (fun (a b : PrioritizedTask) => decide (b.score ≤ a.score))
      (fun a b c h1 h2 => by
        simp only [decide_eq_true_eq] at h1 h2 ⊢
        exact le_trans h2 h1)
      (fun a b => by
        simp only [decide_eq_true_eq]
        exact Int.le_total b.score a.score)
      ((tasks.map (scoreTask now context)))
    rw [localPrioritization]
    exact hp.imp (fun h => by simpa using h)

theorem localPrioritization_clamped_sorted_witness :
    (scoreTask 0 ⟨2, 60, 10⟩ ⟨1, "Write report", none, 9, some 30, [], "pending"⟩ ∈
      localPrioritization 0 [⟨1, "Write report", none, 9, some 30, [], "pending"⟩] ⟨2, 60, 10⟩) ∧
    (0 ≤ (scoreTask 0 ⟨2, 60, 10⟩ ⟨1, "Write report", none, 9, some 30, [], "pending"⟩).score ∧
      (scoreTask 0 ⟨2, 60, 10⟩ ⟨1, "Write report", none, 9, some 30, [], "pending"⟩).score ≤ 100) :=
  ⟨by decide,
    (localPrioritization_clamped_sorted 0
      [⟨1, "Write report", none, 9, some 30, [], "pending"⟩] ⟨2, 60, 10⟩).1 _ (by decide)⟩

/-- C8: with no API key, `generateMicroSteps` fails with `API_KEY_REQUIRED`
while `analyzeThoughts`, `extractTasksAndUrges` and `prioritizeTasks` return
their local heuristic's result; and each of the latter three also returns
the local result when the remote call fails (oracle `none`), for any key. -/
theorem noKey_and_failure_fallbacks (transcript : String) (rand : Nat) (apiKey : String)
    (remoteA : Option CognitiveAnalysis)
    (taskPatterns : List TaskPattern) (urgePatterns : List UrgePattern)
    (remoteE : Option ExtractedItems)
    (now : Int) (tasks : List TaskForPrioritization) (context : PrioritizationContext)
    (remoteP : Option (List PrioritizedTask))
    (title : String) (description : Option String) (resistance : Int)
    (remoteM : Option (List RawStep)) :
    generateMicroSteps title description resistance "" remoteM =
      Except.error "API_KEY_REQUIRED" ∧
    analyzeThoughts transcript "" remoteA rand = patternBasedAnalysis transcript rand ∧
    extractTasksAndUrges taskPatterns urgePatterns transcript "" remoteE =
      patternBasedExtraction taskPatterns urgePatterns transcript ∧
    prioritizeTasks now tasks context "" remoteP =
      localPrioritization now (activeTasksOf tasks) context ∧
    analyzeThoughts transcript apiKey none rand = patternBasedAnalysis transcript rand ∧
    extractTasksAndUrges taskPatterns urgePatterns transcript apiKey none =
      patternBasedExtraction taskPatterns urgePatterns transcript ∧
    prioritizeTasks now tasks context apiKey none =
      localPrioritization now (activeTasksOf tasks) context := by
  have hnil : ∀ (ts : List TaskForPrioritization) (c : PrioritizationContext),
      ts.length = 0 → ([] : List PrioritizedTask) = localPrioritization now ts c := by
    intro ts c h
    rw [List.length_eq_zero] at h
    subst h
    rfl
  have hprio : ∀ (k : String) (r : Option (List PrioritizedTask)),
      (k = "" ∨ r = none) →
      prioritizeTasks now tasks context k r =
        localPrioritization now (activeTasksOf tasks) context := by
    intro k r hk
    unfold prioritizeTasks
    by_cases h : (activeTasksOf tasks).length = 0
    · rw [if_pos h]
      exact hnil _ _ h
    · rw [if_neg h]
      by_cases hke : k = ""
      · rw [if_pos hke]
      · rw [if_neg hke]
        rcases hk with hk | hk
        · exact absurd hk hke
        · rw [hk]
  have hanalyze : analyzeThoughts transcript apiKey none rand =
      patternBasedAnalysis transcript rand := by
    unfold analyzeThoughts
    by_cases h : apiKey = ""
    · rw [if_pos h]
    · rw [if_neg h]
  have hextract : extractTasksAndUrges taskPatterns urgePatterns transcript apiKey none =
      patternBasedExtraction taskPatterns urgePatterns transcript := by
    unfold extractTasksAndUrges
    by_cases h : apiKey = ""
    · rw [if_pos h]
    · rw [if_neg h]
  exact ⟨rfl, rfl, rfl, hprio "" remoteP (Or.inl rfl), hanalyze, hextract,
    hprio apiKey none (Or.inr rfl)⟩

theorem toNat_ofNat_valid (n : Nat) (h : n < 55296) : (Char.ofNat n).toNat = n := by
  have hv : n.isValidChar := Or.inl h
  rw [Char.ofNat, dif_pos hv]
  simp [Char.ofNatAux, Char.toNat, UInt32.toNat]

theorem lcChar_ucChar (c : Char) : lcChar (ucChar c) = lcChar c := by
  unfold lcChar ucChar Char.toUpper Char.toLower
  by_cases h : c.toNat ≥ 97 ∧ c.toNat ≤ 122
  · rw [if_pos h]
    have h1 : (Char.ofNat (c.toNat - 32)).toNat = c.toNat - 32 :=
      toNat_ofNat_valid _ (by omega)
    rw [h1, if_pos (by omega), if_neg (by omega)]
    have h2 : c.toNat - 32 + 32 = c.toNat := by omega
    rw [h2, Char.ofNat_toNat]
  · rw [if_neg h]

/-- Lower-casing cancels the capitalization of the first character, so the
dedup guard of the extractor also covers the title as stored. -/
theorem lcString_capitalize (s : String) : lcString (capitalize s) = lcString s := by
  cases s with
  | mk data =>
    cases data with
    | nil => rfl
    | cons c cs =>
      show lcString (String.mk (ucChar c :: cs)) = lcString (String.mk (c :: cs))
      unfold lcString
      simp [String.toList, lcChar_ucChar]

theorem taskStepExtract_pairwise (taskPatterns : List TaskPattern)
    (tasks : List ExtractedTask) (sentence : String)
    (h : tasks.Pairwise (fun a b => lcString a.title ≠ lcString b.title)) :
    (taskStepExtract taskPatterns tasks sentence).Pairwise
      (fun a b => lcString a.title ≠ lcString b.title) := by
  unfold taskStepExtract
  cases taskPatterns.findSome? (fun p => p sentence) with
  | none => exact h
  | some cap =>
    cases cap with
    | none => exact h
    | some c =>
      simp only []
      by_cases hlen : jsTrim c ≠ "" ∧ (jsTrim c).length > 3 ∧ (jsTrim c).length < 100
      · rw [if_pos hlen]
        by_cases hdup : tasks.any (fun t => lcString t.title = lcString (jsTrim c))
        · rw [if_pos hdup]
          exact h
        · rw [if_neg hdup]
          rw [List.pairwise_append]
          refine ⟨h, List.pairwise_singleton _ _, ?_⟩
          intro a ha b hb
          rw [List.mem_singleton] at hb
          subst hb
          show lcString a.title ≠ lcString (capitalize (jsTrim c))
          rw [lcString_capitalize]
          have hd : tasks.any (fun t => lcString t.title = lcString (jsTrim c)) = false := by
            simpa using hdup
          simpa using List.any_eq_false.mp hd a ha
      · rw [if_neg hlen]
        exact h

theorem extractionFold_fst_pairwise (taskPatterns : List TaskPattern)
    (urgePatterns : List UrgePattern) (sentences : List String) :
    (extractionFold taskPatterns urgePatterns sentences).1.Pairwise
      (fun a b => lcString a.title ≠ lcString b.title) := by
  suffices hgen : ∀ st : List ExtractedTask × List ExtractedUrge,
      st.1.Pairwise (fun a b => lcString a.title ≠ lcString b.title) →
      ((sentences.foldl
        (fun (st : List ExtractedTask × List ExtractedUrge) sentence =>
          (taskStepExtract taskPatterns st.1 sentence,
           urgeStepExtract urgePatterns st.2 sentence)) st).1).Pairwise
        (fun a b => lcString a.title ≠ lcString b.title) by
    exact hgen ([], []) List.Pairwise.nil
  induction sentences with
  | nil => intro st hst; exact hst
  | cons s ss ih =>
    intro st hst
    exact ih _ (taskStepExtract_pairwise taskPatterns st.1 s hst)

/-- C9: `patternBasedExtraction` returns at most 10 tasks and at most 5
urges, and no two returned tasks have case-insensitively equal titles. -/
theorem patternBasedExtraction_caps_dedup (taskPatterns : List TaskPattern)
    (urgePatterns : List UrgePattern) (transcript : String) :
    (patternBasedExtraction taskPatterns urgePatterns transcript).tasks.length ≤ 10 ∧
    (patternBasedExtraction taskPatterns urgePatterns transcript).urges.length ≤ 5 ∧
    (patternBasedExtraction taskPatterns urgePatterns transcript).tasks.Pairwise
      (fun a b => lcString a.title ≠ lcString b.title) := by
  refine ⟨?_, ?_, ?_⟩
  · show ((extractionFold taskPatterns urgePatterns (sentencesOf transcript)).1.take
      10).length ≤ 10
    rw [List.length_take]
    exact min_le_left _ _
  · show ((extractionFold taskPatterns urgePatterns (sentencesOf transcript)).2.take
      5).length ≤ 5
    rw [List.length_take]
    exact min_le_left _ _
  · exact List.Pairwise.sublist (List.take_sublist _ _)
      (extractionFold_fst_pairwise taskPatterns urgePatterns (sentencesOf transcript))

theorem pairwise_lt_range' : ∀ (n s : Nat), (List.range' s n).Pairwise (· < ·)
  | 0, _ => by simp
  | n + 1, s => by
    rw [List.range'_succ]
    refine List.Pairwise.cons ?_ (pairwise_lt_range' n (s + 1))
    intro b hb
    rw [List.mem_range'] at hb
    obtain ⟨i, _, rfl⟩ := hb
    omega

theorem hourlyAveragesOf_pairwise (recentLogs : List MoodLog) :
    (hourlyAveragesOf recentLogs).Pairwise (fun a b => a.hour < b.hour) := by
  unfold hourlyAveragesOf
  rw [List.pairwise_filterMap]
  refine (pairwise_lt_range' 17 6).imp ?_
  intro a b hab x hx y hy
  have hmem : ∀ (c : Nat) (z : HourlyEnergy),
      z ∈ (if (hourlyBucket recentLogs c).length = 0 then none
        else some { hour := c
                    avgEnergy := ((hourlyBucket recentLogs c).foldl (· + ·) 0 : Int) /
                      ((hourlyBucket recentLogs c).length : Rat)
                    sampleCount := (hourlyBucket recentLogs c).length }) →
      z.hour = c := by
    intro c z hz
    by_cases h : (hourlyBucket recentLogs c).length = 0
    · rw [if_pos h] at hz
      exact absurd hz (by simp)
    · rw [if_neg h] at hz
      rw [Option.mem_def] at hz
      have := Option.some.inj hz
      rw [← this]
  rw [hmem a x hx, hmem b y hy]
  exact hab

theorem hour_inj_of_pairwise {l : List HourlyEnergy}
    (h : l.Pairwise (fun a b => a.hour < b.hour)) :
    ∀ e1 ∈ l, ∀ e2 ∈ l, e1.hour = e2.hour → e1 = e2 := by
  intro e1 h1 e2 h2 heq
  by_cases hne : e1 = e2
  · exact hne
  · have hsymm : Symmetric (fun a b : HourlyEnergy => a.hour = b.hour → a = b) := by
      intro a b hab hba
      exact (hab hba.symm).symm
    have hp : l.Pairwise (fun a b : HourlyEnergy => a.hour = b.hour → a = b) :=
      h.imp (fun hab hq => absurd hq (by omega))
    exact List.Pairwise.forall hsymm hp h1 h2 hne heq

/-- C4 (amended): `peakHours` and `lowHours` are disjoint whenever the 25th
percentile of the per-hour averages is strictly below the 75th percentile
(they can coincide, e.g. when all per-hour averages are equal, and then an
hour can be in both lists); and, unconditionally, every hour in `peakHours`
comes from an hourly entry with `avgEnergy >= p75` and `sampleCount >= 2`. -/
theorem analyzeEnergyPatterns_percentiles (now : Int) (moodLogs : List MoodLog) (days : Int) :
    ((p25Of (hourlyAveragesOf (recentLogsOf now days moodLogs)) <
        p75Of (hourlyAveragesOf (recentLogsOf now days moodLogs))) →
      List.Disjoint (analyzeEnergyPatterns now moodLogs days).peakHours
        (analyzeEnergyPatterns now moodLogs days).lowHours) ∧
    (∀ hr ∈ (analyzeEnergyPatterns now moodLogs days).peakHours,
      ∃ e ∈ (analyzeEnergyPatterns now moodLogs days).hourlyAverages,
        e.hour = hr ∧
        p75Of (hourlyAveragesOf (recentLogsOf now days moodLogs)) ≤ e.avgEnergy ∧
        2 ≤ e.sampleCount) := by
  have hpk : (analyzeEnergyPatterns now moodLogs days).peakHours =
      ((hourlyAveragesOf (recentLogsOf now days moodLogs)).filter
        (fun h => p75Of (hourlyAveragesOf (recentLogsOf now days moodLogs)) ≤ h.avgEnergy ∧
          2 ≤ h.sampleCount)).map (fun h => h.hour) := rfl
  have hlo : (analyzeEnergyPatterns now moodLogs days).lowHours =
      ((hourlyAveragesOf (recentLogsOf now days moodLogs)).filter
        (fun h => h.avgEnergy ≤ p25Of (hourlyAveragesOf (recentLogsOf now days moodLogs)) ∧
          2 ≤ h.sampleCount)).map (fun h => h.hour) := rfl
  have havg : (analyzeEnergyPatterns now moodLogs days).hourlyAverages =
      hourlyAveragesOf (recentLogsOf now days moodLogs) := rfl
  constructor
  · intro hlt hr h1 h2
    rw [hpk] at h1
    rw [hlo] at h2
    obtain ⟨e1, he1, he1h⟩ := List.mem_map.mp h1
    obtain ⟨e2, he2, he2h⟩ := List.mem_map.mp h2
    obtain ⟨he1m, he1c⟩ := List.mem_filter.mp he1
    obtain ⟨he2m, he2c⟩ := List.mem_filter.mp he2
    have heq : e1 = e2 :=
      hour_inj_of_pairwise (hourlyAveragesOf_pairwise _) e1 he1m e2 he2m
        (by rw [he1h, he2h])
    have hc1 := of_decide_eq_true he1c
    have hc2 := of_decide_eq_true he2c
    have : p75Of (hourlyAveragesOf (recentLogsOf now days moodLogs)) ≤
        p25Of (hourlyAveragesOf (recentLogsOf now days moodLogs)) := by
      calc p75Of _ ≤ e1.avgEnergy := hc1.1
        _ = e2.avgEnergy := by rw [heq]
        _ ≤ p25Of _ := hc2.1
    exact absurd hlt (not_lt.mpr this)
  · intro hr hmem
    rw [hpk] at hmem
    obtain ⟨e, he, heh⟩ := List.mem_map.mp hmem
    obtain ⟨hem, hec⟩ := List.mem_filter.mp he
    have hc := of_decide_eq_true hec
    exact ⟨e, havg ▸ hem, heh, hc.1, hc.2⟩

/-- C4 (corrected, counterexample): with two hours of two samples each, all
of energy 3, both percentiles equal 3 and both hours land in `peakHours`
and in `lowHours`, so the two lists are not disjoint. -/
theorem analyzeEnergyPatterns_disjoint_counterexample :
    ¬ List.Disjoint
      (analyzeEnergyPatterns (8640000000 + 82800000)
        [⟨3, 3, 8640000000 + 32400000⟩, ⟨3, 3, 8640000000 + 32400000⟩,
         ⟨3, 3, 8640000000 + 54000000⟩, ⟨3, 3, 8640000000 + 54000000⟩] 14).peakHours
      (analyzeEnergyPatterns (8640000000 + 82800000)
        [⟨3, 3, 8640000000 + 32400000⟩, ⟨3, 3, 8640000000 + 32400000⟩,
         ⟨3, 3, 8640000000 + 54000000⟩, ⟨3, 3, 8640000000 + 54000000⟩] 14).lowHours := by
  intro hd
  exact hd (a := 9) (by with_unfolding_all decide) (by with_unfolding_all decide)

theorem analyzeEnergyPatterns_percentiles_witness :
    (p25Of (hourlyAveragesOf (recentLogsOf (8640000000 + 82800000) 14
        [⟨3, 5, 8640000000 + 32400000⟩, ⟨3, 5, 8640000000 + 32400000⟩,
         ⟨3, 1, 8640000000 + 54000000⟩, ⟨3, 1, 8640000000 + 54000000⟩])) <
      p75Of (hourlyAveragesOf (recentLogsOf (8640000000 + 82800000) 14
        [⟨3, 5, 8640000000 + 32400000⟩, ⟨3, 5, 8640000000 + 32400000⟩,
         ⟨3, 1, 8640000000 + 54000000⟩, ⟨3, 1, 8640000000 + 54000000⟩]))) ∧
    List.Disjoint
      (analyzeEnergyPatterns (8640000000 + 82800000)
        [⟨3, 5, 8640000000 + 32400000⟩, ⟨3, 5, 8640000000 + 32400000⟩,
         ⟨3, 1, 8640000000 + 54000000⟩, ⟨3, 1, 8640000000 + 54000000⟩] 14).peakHours
      (analyzeEnergyPatterns (8640000000 + 82800000)
        [⟨3, 5, 8640000000 + 32400000⟩, ⟨3, 5, 8640000000 + 32400000⟩,
         ⟨3, 1, 8640000000 + 54000000⟩, ⟨3, 1, 8640000000 + 54000000⟩] 14).lowHours ∧
    (∃ e ∈ (analyzeEnergyPatterns (8640000000 + 82800000)
        [⟨3, 5, 8640000000 + 32400000⟩, ⟨3, 5, 8640000000 + 32400000⟩,
         ⟨3, 1, 8640000000 + 54000000⟩, ⟨3, 1, 8640000000 + 54000000⟩] 14).hourlyAverages,
      e.hour = 9 ∧
      p75Of (hourlyAveragesOf (recentLogsOf (8640000000 + 82800000) 14
        [⟨3, 5, 8640000000 + 32400000⟩, ⟨3, 5, 8640000000 + 32400000⟩,
         ⟨3, 1, 8640000000 + 54000000⟩, ⟨3, 1, 8640000000 + 54000000⟩])) ≤ e.avgEnergy ∧
      2 ≤ e.sampleCount) :=
  ⟨by with_unfolding_all decide,
    (analyzeEnergyPatterns_percentiles (8640000000 + 82800000)
      [⟨3, 5, 8640000000 + 32400000⟩, ⟨3, 5, 8640000000 + 32400000⟩,
       ⟨3, 1, 8640000000 + 54000000⟩, ⟨3, 1, 8640000000 + 54000000⟩] 14).1
      (by with_unfolding_all decide),
    (analyzeEnergyPatterns_percentiles (8640000000 + 82800000)
      [⟨3, 5, 8640000000 + 32400000⟩, ⟨3, 5, 8640000000 + 32400000⟩,
       ⟨3, 1, 8640000000 + 54000000⟩, ⟨3, 1, 8640000000 + 54000000⟩] 14).2 9
      (by with_unfolding_all decide)⟩

theorem overlapsI_comm (a b : Interval) : overlapsI a b = overlapsI b a := by
  unfold overlapsI
  simp only [gt_iff_lt]
  rw [Bool.and_comm]

theorem probeSlot_ge_aux (occ : List Interval) (d : Nat) :
    ∀ (k s : Nat), 1200 - s ≤ k → s ≤ probeSlot occ d s := by
  intro k
  induction k with
  | zero =>
    intro s hk
    rw [probeSlot]
    by_cases hc : occ.any (fun slot => overlapsI ⟨s, s + d⟩ slot)
    · rw [if_pos hc, if_pos (by omega)]
      omega
    · rw [if_neg hc]
  | succ k ih =>
    intro s hk
    rw [probeSlot]
    by_cases hc : occ.any (fun slot => overlapsI ⟨s, s + d⟩ slot)
    · rw [if_pos hc]
      by_cases hb : 1200 ≤ s + 30
      · rw [if_pos hb]
        omega
      · rw [if_neg hb]
        have := ih (s + 30) (by omega)
        omega
    · rw [if_neg hc]

theorem probeSlot_ge (occ : List Interval) (d s : Nat) : s ≤ probeSlot occ d s :=
  probeSlot_ge_aux occ d 1200 s (by omega)

theorem probeSlot_no_conflict_aux (occ : List Interval) (d : Nat) :
    ∀ (k s : Nat), 1200 - s ≤ k → probeSlot occ d s < 1200 →
    occ.any (fun slot =>
      overlapsI ⟨probeSlot occ d s, probeSlot occ d s + d⟩ slot) = false := by
  intro k
  induction k with
  | zero =>
    intro s hk hlt
    rw [probeSlot] at hlt ⊢
    by_cases hc : occ.any (fun slot => overlapsI ⟨s, s + d⟩ slot)
    · rw [if_pos hc, if_pos (by omega)] at hlt ⊢
      exact absurd hlt (by omega)
    · rw [if_neg hc] at hlt ⊢
      simpa using hc
  | succ k ih =>
    intro s hk hlt
    rw [probeSlot] at hlt ⊢
    by_cases hc : occ.any (fun slot => overlapsI ⟨s, s + d⟩ slot)
    · rw [if_pos hc] at hlt ⊢
      by_cases hb : 1200 ≤ s + 30
      · rw [if_pos hb] at hlt ⊢
        exact absurd hlt (by omega)
      · rw [if_neg hb] at hlt ⊢
        exact ih (s + 30) (by omega) hlt
    · rw [if_neg hc] at hlt ⊢
      simpa using hc

theorem probeSlot_no_conflict (occ : List Interval) (d s : Nat)
    (h : probeSlot occ d s < 1200) :
    occ.any (fun slot =>
      overlapsI ⟨probeSlot occ d s, probeSlot occ d s + d⟩ slot) = false :=
  probeSlot_no_conflict_aux occ d 1200 s (by omega) h

theorem chosenSlotStart_no_conflict (peakHours : List Nat) (occ : List Interval)
    (task : SchedTask) (currentMinute : Nat)
    (h : chosenSlotStart peakHours occ task currentMinute < 1200) :
    occ.any (fun slot =>
      overlapsI ⟨chosenSlotStart peakHours occ task currentMinute,
        chosenSlotStart peakHours occ task currentMinute + effDuration task⟩ slot) =
      false := by
  unfold chosenSlotStart at h ⊢
  by_cases hc : occ.any (fun slot =>
      overlapsI ⟨bestHourFor peakHours occ task currentMinute * 60,
        bestHourFor peakHours occ task currentMinute * 60 + effDuration task⟩ slot)
  · rw [if_pos hc] at h ⊢
    exact probeSlot_no_conflict occ (effDuration task) currentMinute h
  · rw [if_neg hc] at h ⊢
    simpa using hc

theorem chosenSlotStart_ge (peakHours : List Nat) (occ : List Interval)
    (task : SchedTask) (currentMinute : Nat)
    (hp : ∀ h ∈ peakHours, 6 ≤ h) (hcm : 360 ≤ currentMinute) :
    360 ≤ chosenSlotStart peakHours occ task currentMinute := by
  have hbest : 6 ≤ bestHourFor peakHours occ task currentMinute := by
    unfold bestHourFor
    by_cases hr : task.resistance ≥ 7 ∧ peakHours.length > 0
    · rw [if_pos hr]
      cases hfind : peakHours.find? (fun h =>
          !(occ.any (fun slot =>
            overlapsI ⟨h * 60, h * 60 + effDuration task⟩ slot))) with
      | some h => exact hp h (List.mem_of_find?_eq_some hfind)
      | none =>
        show 6 ≤ currentMinute / 60
        omega
    · rw [if_neg hr]
      omega
  unfold chosenSlotStart
  by_cases hc : occ.any (fun slot =>
      overlapsI ⟨bestHourFor peakHours occ task currentMinute * 60,
        bestHourFor peakHours occ task currentMinute * 60 + effDuration task⟩ slot)
  · rw [if_pos hc]
    exact le_trans hcm (probeSlot_ge occ (effDuration task) currentMinute)
  · rw [if_neg hc]
    omega

theorem scheduleStep_bounds (peakHours : List Nat) (st : SchedState) (task : SchedTask)
    (hp : ∀ h ∈ peakHours, 6 ≤ h) (hd : effDuration task ≤ 120)
    (hcm : 360 ≤ st.currentMinute)
    (hcr : ∀ b ∈ st.created, 360 ≤ b.startMin ∧ b.startMin < 1200 ∧ b.stopMin ≤ 1320) :
    360 ≤ (scheduleStep peakHours st task).currentMinute ∧
    ∀ b ∈ (scheduleStep peakHours st task).created,
      360 ≤ b.startMin ∧ b.startMin < 1200 ∧ b.stopMin ≤ 1320 := by
  unfold scheduleStep
  by_cases hskip : 1200 ≤ chosenSlotStart peakHours st.occupiedSlots task st.currentMinute
  · rw [if_pos hskip]
    exact ⟨hcm, hcr⟩
  · rw [if_neg hskip]
    have hge := chosenSlotStart_ge peakHours st.occupiedSlots task st.currentMinute hp hcm
    constructor
    · show 360 ≤ chosenSlotStart peakHours st.occupiedSlots task st.currentMinute +
        effDuration task + 15
      omega
    · intro b hb
      simp only [] at hb
      rw [List.mem_append] at hb
      rcases hb with hb | hb
      · exact hcr b hb
      · rw [List.mem_singleton] at hb
        subst hb
        refine ⟨hge, ?_, ?_⟩
        · show chosenSlotStart peakHours st.occupiedSlots task st.currentMinute < 1200
          omega
        · show chosenSlotStart peakHours st.occupiedSlots task st.currentMinute +
            effDuration task ≤ 1320
          omega

theorem schedule_foldl_bounds (peakHours : List Nat) (hp : ∀ h ∈ peakHours, 6 ≤ h) :
    ∀ (ts : List SchedTask) (st : SchedState),
      (∀ t ∈ ts, effDuration t ≤ 120) → 360 ≤ st.currentMinute →
      (∀ b ∈ st.created, 360 ≤ b.startMin ∧ b.startMin < 1200 ∧ b.stopMin ≤ 1320) →
      ∀ b ∈ (ts.foldl (scheduleStep peakHours) st).created,
        360 ≤ b.startMin ∧ b.startMin < 1200 ∧ b.stopMin ≤ 1320 := by
  intro ts
  induction ts with
  | nil =>
    intro st _ _ hcr
    exact hcr
  | cons t ts ih =>
    intro st hts hcm hcr
    have hstep := scheduleStep_bounds peakHours st t hp (hts t (by simp)) hcm hcr
    exact ih _ (fun x hx => hts x (by simp [hx])) hstep.1 hstep.2

/-- C1 (amended): if every peak hour of the energy pattern is at least 6 and
every task's effective duration (`estimatedMinutes || 30`) is at most 120
minutes, then every block created by one auto-scheduler invocation starts at
or after 06:00, starts strictly before 20:00, and ends at or before 22:00.
Without those two conditions the 06:00/22:00 bounds do not hold (see the
counterexample). -/
theorem handleSimpleAutoSchedule_bounds (tasks : List SchedTask)
    (existingBlocks : List Interval) (peakHours : List Nat)
    (hp : ∀ h ∈ peakHours, 6 ≤ h) (hd : ∀ t ∈ tasks, effDuration t ≤ 120) :
    ∀ b ∈ handleSimpleAutoSchedule tasks existingBlocks peakHours,
      360 ≤ b.startMin ∧ b.startMin < 1200 ∧ b.stopMin ≤ 1320 := by
  unfold handleSimpleAutoSchedule
  by_cases hnil : tasks.length = 0
  · rw [if_pos hnil]
    intro b hb
    exact absurd hb (List.not_mem_nil b)
  · rw [if_neg hnil]
    refine schedule_foldl_bounds peakHours hp _ _ ?_ (by norm_num) ?_
    · intro t ht
      refine hd t ?_
      have h1 : t ∈ jsSort (fun a b => decide (b.resistance ≤ a.resistance)) tasks :=
        List.take_subset 5 _ ht
      exact (mem_jsSort _ t tasks).mp h1
    · intro b hb
      exact absurd hb (List.not_mem_nil b)

/-- C1 (corrected, counterexample): with a peak hour of 3 (the energy
pattern is an arbitrary input of the handler) and 900-minute tasks, the
auto-scheduler creates a block starting at 03:00 (before 06:00) and a block
ending at 33:00 (after 22:00): the source only caps `slotStart` below
20:00, never the end time, and a peak-hour start is used unchecked. -/
theorem handleSimpleAutoSchedule_bounds_counterexample :
    ((handleSimpleAutoSchedule
        [{ id := 1, title := "A", resistance := 9, estimatedMinutes := some 900 },
         { id := 2, title := "B", resistance := 5, estimatedMinutes := some 900 }]
        [] [3]).map (fun b => (b.startMin, b.stopMin)) = [(180, 1080), (1080, 1980)]) ∧
    180 < 360 ∧ 1320 < 1980 := by
  refine ⟨?_, by omega, by omega⟩
  rfl

theorem handleSimpleAutoSchedule_bounds_witness :
    (∀ h ∈ [9], 6 ≤ h) ∧
    (∀ t ∈ [({ id := 1, title := "A", resistance := 9, estimatedMinutes := some 30 } :
        SchedTask)], effDuration t ≤ 120) ∧
    (∀ b ∈ handleSimpleAutoSchedule
        [{ id := 1, title := "A", resistance := 9, estimatedMinutes := some 30 }] [] [9],
      360 ≤ b.startMin ∧ b.startMin < 1200 ∧ b.stopMin ≤ 1320) :=
  ⟨by decide, by decide,
    handleSimpleAutoSchedule_bounds
      [{ id := 1, title := "A", resistance := 9, estimatedMinutes := some 30 }] [] [9]
      (by decide) (by decide)⟩

theorem scheduleStep_no_overlap (peakHours : List Nat) (existingBlocks : List Interval)
    (st : SchedState) (task : SchedTask)
    (hocc : st.occupiedSlots = existingBlocks ++
      st.created.map (fun (b : CreatedBlock) => Interval.mk b.startMin b.stopMin))
    (hpw : (st.created.map
      (fun (b : CreatedBlock) => Interval.mk b.startMin b.stopMin)).Pairwise
      (fun i j => overlapsI i j = false))
    (hex : ∀ i ∈ st.created.map
      (fun (b : CreatedBlock) => Interval.mk b.startMin b.stopMin),
      ∀ e ∈ existingBlocks, overlapsI i e = false) :
    (scheduleStep peakHours st task).occupiedSlots = existingBlocks ++
      (scheduleStep peakHours st task).created.map
        (fun (b : CreatedBlock) => Interval.mk b.startMin b.stopMin) ∧
    ((scheduleStep peakHours st task).created.map
      (fun (b : CreatedBlock) => Interval.mk b.startMin b.stopMin)).Pairwise
      (fun i j => overlapsI i j = false) ∧
    (∀ i ∈ (scheduleStep peakHours st task).created.map
      (fun (b : CreatedBlock) => Interval.mk b.startMin b.stopMin),
      ∀ e ∈ existingBlocks, overlapsI i e = false) := by
  unfold scheduleStep
  by_cases hskip : 1200 ≤ chosenSlotStart peakHours st.occupiedSlots task st.currentMinute
  · rw [if_pos hskip]
    exact ⟨hocc, hpw, hex⟩
  · rw [if_neg hskip]
    have hnc := chosenSlotStart_no_conflict peakHours st.occupiedSlots task
      st.currentMinute (by omega)
    have hncAll : ∀ s ∈ st.occupiedSlots,
        overlapsI ⟨chosenSlotStart peakHours st.occupiedSlots task st.currentMinute,
          chosenSlotStart peakHours st.occupiedSlots task st.currentMinute +
            effDuration task⟩ s = false := by
      intro s hs
      simpa using List.any_eq_false.mp hnc s hs
    refine ⟨?_, ?_, ?_⟩
    · simp only [List.map_append, List.map_cons, List.map_nil]
      rw [hocc, List.append_assoc]
    · simp only [List.map_append, List.map_cons, List.map_nil]
      rw [List.pairwise_append]
      refine ⟨hpw, List.pairwise_singleton _ _, ?_⟩
      intro i hi x hx
      rw [List.mem_singleton] at hx
      subst hx
      rw [overlapsI_comm]
      exact hncAll i (by rw [hocc, List.mem_append]; exact Or.inr hi)
    · intro i hi e he
      simp only [List.map_append, List.map_cons, List.map_nil] at hi
      rw [List.mem_append] at hi
      rcases hi with hi | hi
      · exact hex i hi e he
      · rw [List.mem_singleton] at hi
        subst hi
        exact hncAll e (by rw [hocc, List.mem_append]; exact Or.inl he)

theorem schedule_foldl_no_overlap (peakHours : List Nat)
    (existingBlocks : List Interval) :
    ∀ (ts : List SchedTask) (st : SchedState),
      st.occupiedSlots = existingBlocks ++
        st.created.map (fun (b : CreatedBlock) => Interval.mk b.startMin b.stopMin) →
      (st.created.map
        (fun (b : CreatedBlock) => Interval.mk b.startMin b.stopMin)).Pairwise
        (fun i j => overlapsI i j = false) →
      (∀ i ∈ st.created.map
        (fun (b : CreatedBlock) => Interval.mk b.startMin b.stopMin),
        ∀ e ∈ existingBlocks, overlapsI i e = false) →
      (((ts.foldl (scheduleStep peakHours) st).created.map
        (fun (b : CreatedBlock) => Interval.mk b.startMin b.stopMin)).Pairwise
        (fun i j => overlapsI i j = false) ∧
       (∀ i ∈ (ts.foldl (scheduleStep peakHours) st).created.map
          (fun (b : CreatedBlock) => Interval.mk b.startMin b.stopMin),
        ∀ e ∈ existingBlocks, overlapsI i e = false)) := by
  intro ts
  induction ts with
  | nil =>
    intro st _ hpw hex
    exact ⟨hpw, hex⟩
  | cons t ts ih =>
    intro st hocc hpw hex
    have hstep := scheduleStep_no_overlap peakHours existingBlocks st t hocc hpw hex
    exact ih _ hstep.1 hstep.2.1 hstep.2.2

/-- C2: within one auto-scheduler invocation the created blocks' [start,stop)
minute intervals are pairwise non-overlapping, and none of them overlaps the
interval of any block that already existed for the target date. -/
theorem handleSimpleAutoSchedule_no_overlap (tasks : List SchedTask)
    (existingBlocks : List Interval) (peakHours : List Nat) :
    (((handleSimpleAutoSchedule tasks existingBlocks peakHours).map
      (fun (b : CreatedBlock) => Interval.mk b.startMin b.stopMin)).Pairwise
      (fun i j => overlapsI i j = false)) ∧
    (∀ b ∈ handleSimpleAutoSchedule tasks existingBlocks peakHours,
      ∀ e ∈ existingBlocks, overlapsI ⟨b.startMin, b.stopMin⟩ e = false) := by
  unfold handleSimpleAutoSchedule
  by_cases hnil : tasks.length = 0
  · rw [if_pos hnil]
    constructor
    · exact List.Pairwise.nil
    · intro b hb
      exact absurd hb (List.not_mem_nil b)
  · rw [if_neg hnil]
    have h := schedule_foldl_no_overlap peakHours existingBlocks
      ((jsSort (fun a b => decide (b.resistance ≤ a.resistance)) tasks).take 5)
      { occupiedSlots := existingBlocks, currentMinute := 9 * 60, created := [] }
      (by simp) List.Pairwise.nil (by simp)
    refine ⟨h.1, ?_⟩
    intro b hb e he
    exact h.2 ⟨b.startMin, b.stopMin⟩ (List.mem_map.mpr ⟨b, hb, rfl⟩) e he

theorem handleSimpleAutoSchedule_no_overlap_witness :
    ({ title := "A", startMin := 540, stopMin := 570, color := "#f97316",
        taskId := 1 } ∈
      handleSimpleAutoSchedule
        [{ id := 1, title := "A", resistance := 5, estimatedMinutes := some 30 }]
        [⟨600, 660⟩] []) ∧
    ((⟨600, 660⟩ : Interval) ∈ [(⟨600, 660⟩ : Interval)]) ∧
    overlapsI ⟨540, 570⟩ ⟨600, 660⟩ = false :=
  ⟨by decide, by decide,
    (handleSimpleAutoSchedule_no_overlap
      [{ id := 1, title := "A", resistance := 5, estimatedMinutes := some 30 }]
      [⟨600, 660⟩] []).2
      { title := "A", startMin := 540, stopMin := 570, color := "#f97316", taskId := 1 }
      (by decide) ⟨600, 660⟩ (by decide)⟩

/-- C7 (amended): the drag-and-drop placement snaps the drop minute to the
nearest 15-minute mark and gives the block the task's duration (default 30),
but the acceptance condition is `startHour >= 6 && endHour <= 22` on the
floor-divided hours: a block is created iff the snapped start is at or after
06:00 and the end is strictly before 23:00 — endings in (22:00, 22:59] are
accepted rather than rejected. -/
theorem handleDragEnd_spec (task : SchedTask) (dropHour dropMinute : Nat) :
    (handleDragEnd task dropHour dropMinute = none ↔
      (dropHour * 60 + snapTo15 dropMinute < 360 ∨
        1380 ≤ dropHour * 60 + snapTo15 dropMinute + effDuration task)) ∧
    (∀ b, handleDragEnd task dropHour dropMinute = some b →
      b.startMin = dropHour * 60 + snapTo15 dropMinute ∧
      b.stopMin = dropHour * 60 + snapTo15 dropMinute + effDuration task) := by
  unfold handleDragEnd
  by_cases hcond : (dropHour * 60 + snapTo15 dropMinute) / 60 < 6 ∨
      (dropHour * 60 + snapTo15 dropMinute + effDuration task) / 60 > 22
  · rw [if_pos hcond]
    constructor
    · simp only [true_iff]
      omega
    · intro b hb
      exact absurd hb (by simp)
  · rw [if_neg hcond]
    constructor
    · simp only [reduceCtorEq, false_iff]
      omega
    · intro b hb
      have hbe := Option.some.inj hb
      rw [← hbe]
      exact ⟨rfl, rfl⟩

/-- C7 (corrected, counterexample): dropping a 30-minute task at hour 21,
minute 52 snaps to 21:45 and creates a block ending 22:15 — outside
[06:00, 22:00] — where the claim requires a no-op. -/
theorem handleDragEnd_counterexample :
    handleDragEnd { id := 1, title := "A", resistance := 3, estimatedMinutes := some 30 }
      21 52 =
      some { title := "A", startMin := 1305, stopMin := 1335, color := "#22c55e"
             taskId := 1 } ∧
    1320 < 1335 :=
  ⟨rfl, by omega⟩

theorem handleDragEnd_spec_witness :
    (handleDragEnd { id := 1, title := "A", resistance := 3, estimatedMinutes := some 30 }
        9 0 =
      some { title := "A", startMin := 540, stopMin := 570, color := "#22c55e"
             taskId := 1 }) ∧
    ({ title := "A", startMin := 540, stopMin := 570, color := "#22c55e",
        taskId := 1 } : CreatedBlock).startMin = 9 * 60 + snapTo15 0 ∧
    ({ title := "A", startMin := 540, stopMin := 570, color := "#22c55e",
        taskId := 1 } : CreatedBlock).stopMin = 9 * 60 + snapTo15 0 +
      effDuration { id := 1, title := "A", resistance := 3, estimatedMinutes := some 30 } :=
  ⟨rfl,
    (handleDragEnd_spec
      { id := 1, title := "A", resistance := 3, estimatedMinutes := some 30 } 9 0).2
      { title := "A", startMin := 540, stopMin := 570, color := "#22c55e", taskId := 1 }
      rfl⟩

end NeuroLogic
